import Mathlib

/-!
Verification of the claude_code_notification task-tracker core against its
specification.  The Python source under `task_tracker/` is shallowly embedded:
SQLite tables become lists of rows, `datetime` timestamps become natural
numbers counting seconds, and each database-touching function becomes a pure
state transformer on a `Store` value.
-/

set_option maxRecDepth 8000

namespace TaskTracker

/-! ## Timeline aggregation (`services/db_timeline.py`, `aggregate_timeline_nodes`)

A raw timeline row as seen by the aggregation loop.  `timestamp` is `none`
when `datetime.fromisoformat` would raise (the `except` branch skips the
event).  `content` is the event's content after the source's `or ''`
normalisation, and `metaCompleted` / `metaTotal` are the values of
`metadata.get('completed', 0)` / `metadata.get('total', 0)` after JSON
decoding (both 0 when metadata is absent or unparsable). -/
structure TimelineEvent where
  event_type : String
  content : String
  metaCompleted : Nat
  metaTotal : Nat
  timestamp : Option Nat
  deriving Repr, DecidableEq

/-- A display node produced by aggregation.  `time` keeps the raw event time
(the source formats it with `strftime('%H:%M')`; the formatting is not
relevant to any claim). -/
structure TimelineNode where
  time : Nat
  kind : String
  title : String
  description : String
  status : String
  deriving Repr, DecidableEq

/-- The mutable loop state of `aggregate_timeline_nodes`. -/
structure AggState where
  nodes : List TimelineNode
  last_event_time : Option Nat
  consecutive_progress : Nat
  last_completed_count : Nat
  last_status : Option String
  deriving Repr, DecidableEq

def initAggState : AggState := ⟨[], none, 0, 0, none⟩

/-- Node built for a `goal_set` event
(`content[:50] if content else '任务开始'`). -/
def startNode (t : Nat) (content : String) : TimelineNode :=
  ⟨t, "start", "开始任务", if content == "" then "任务开始" else content.take 50,
   "completed"⟩

def waitingNode (t : Nat) : TimelineNode :=
  ⟨t, "waiting", "等待决策", "需要用户输入", "current"⟩

def permissionNode (t : Nat) : TimelineNode :=
  ⟨t, "permission", "等待权限", "需要权限确认", "current"⟩

def completeStatusNode (t : Nat) : TimelineNode :=
  ⟨t, "complete", "任务完成", "已完成全部步骤", "completed"⟩

def milestoneNode (t completed total : Nat) : TimelineNode :=
  ⟨t, "milestone", "阶段完成", s!"已完成 {completed}/{total} 项", "completed"⟩

def allCompleteNode (t total : Nat) : TimelineNode :=
  ⟨t, "complete", "全部完成", s!"已完成全部 {total} 项任务", "completed"⟩

/-- The node (if any) that a non-suppressed `status_change` event with the
given content produces. -/
def statusChangeNode (t : Nat) (content : String) : Option TimelineNode :=
  if content == "waiting_for_user" then some (waitingNode t)
  else if content == "waiting_permission" then some (permissionNode t)
  else if content == "completed" then some (completeStatusNode t)
  else none

/-- Source: `if node: nodes.append(node); last_event_time = event_time`. -/
def pushNode (st : AggState) (t : Nat) : Option TimelineNode → AggState
  | some n => { st with nodes := st.nodes ++ [n], last_event_time := some t }
  | none => st

/-- The source's debounce test:
`last_event_time and (event_time - last_event_time).total_seconds() < 30`. -/
def debounced (st : AggState) (t : Nat) : Bool :=
  match st.last_event_time with
  | some lt => (t : Int) - (lt : Int) < 30
  | none => false

/-- One iteration of the `for event in raw_events` loop of
`aggregate_timeline_nodes`. -/
def aggStep (st : AggState) (e : TimelineEvent) : AggState :=
  match e.timestamp with
  | none => st
  | some t =>
    if e.event_type == "status_change" && debounced st t then st
    else if e.event_type == "goal_set" then
      pushNode st t (some (startNode t e.content))
    else if e.event_type == "status_change" then
      if st.last_status == some e.content then st
      else pushNode { st with last_status := some e.content } t
        (statusChangeNode t e.content)
    else if e.event_type == "progress_update" then
      let completed := e.metaCompleted
      let total := e.metaTotal
      let consec :=
        if completed > st.last_completed_count then
          st.consecutive_progress + (completed - st.last_completed_count)
        else st.consecutive_progress
      let st1 := { st with consecutive_progress := consec,
                           last_completed_count := completed }
      let step2 : Option TimelineNode × AggState :=
        if st1.consecutive_progress ≥ 3 then
          (some (milestoneNode t completed total),
           { st1 with consecutive_progress := 0 })
        else (none, st1)
      let node2 :=
        if completed == total && total > 0 then some (allCompleteNode t total)
        else step2.1
      pushNode step2.2 t node2
    else st

/-- Source: `if nodes and nodes[-1]['type'] not in ['complete']:
nodes[-1]['status'] = 'current'`. -/
def markLastCurrent (nodes : List TimelineNode) : List TimelineNode :=
  match nodes.getLast? with
  | none => []
  | some last =>
    if last.kind == "complete" then nodes
    else nodes.dropLast ++ [{ last with status := "current" }]

/-- Embeds `aggregate_timeline_nodes` over an already-fetched, timestamp-ordered
event list.  The final `nodes[-max_nodes:]` truncation keeps Python slice
semantics: with `max_nodes = 0` the slice `[-0:]` is the whole list. -/
def aggregate_timeline_nodes (raw_events : List TimelineEvent)
    (max_nodes : Nat) : List TimelineNode :=
  if raw_events.isEmpty then []
  else
    let nodes := (raw_events.foldl aggStep initAggState).nodes
    let nodes := markLastCurrent nodes
    if nodes.length > max_nodes then
      if max_nodes == 0 then nodes else nodes.drop (nodes.length - max_nodes)
    else nodes

example :
    aggregate_timeline_nodes
      [⟨"goal_set", "g", 0, 0, some 0⟩,
       ⟨"status_change", "waiting_for_user", 0, 0, some 10⟩] 20
    = [⟨0, "start", "开始任务", "g", "current"⟩] := by decide

example :
    (aggregate_timeline_nodes
      [⟨"status_change", "waiting_for_user", 0, 0, some 0⟩,
       ⟨"status_change", "completed", 0, 0, some 40⟩] 20).map
        (fun n => n.status)
    = ["current", "completed"] := by decide

/-! ## The durable store

Rows of the SQLite tables.  The repository is mid-migration between two
schemas: `services/database.py` keys child rows by the text `session_id`
while `services/db_pending.py` / `session_cleanup.py` key them by the
surrogate primary key `session_pk`; a row therefore carries both keys as
options, and each embedded operation fills exactly the one its SQL uses. -/

structure Todo where
  content : String
  status : String
  deriving Repr, DecidableEq

structure Session where
  id : Nat
  session_id : Option String
  pending_id : Option String
  project : String
  original_goal : String
  current_status : String
  created_at : Nat
  last_activity : Nat
  account_alias : String
  bundle_id : Option String
  terminal_pid : Option Int
  shell_pid : Option Int
  window_id : Option Int
  deriving Repr, DecidableEq

structure TimelineRow where
  session_pk : Option Nat
  session_id : Option String
  event_type : String
  content : Option String
  metadata : Option (Nat × Nat)
  timestamp : Nat
  deriving Repr, DecidableEq

structure ProgressRow where
  session_pk : Option Nat
  session_id : Option String
  todos : Option (List Todo)
  completed_count : Nat
  total_count : Nat
  updated_at : Option Nat
  deriving Repr, DecidableEq

structure PendingDecisionRow where
  session_id : String
  question : String
  options : List String
  resolved : Bool
  created_at : Nat
  resolved_at : Option Nat
  deriving Repr, DecidableEq

/-- The database.  `nextId` models the sessions table's AUTOINCREMENT
counter (`lastrowid` of the next insert). -/
structure Store where
  nextId : Nat
  sessions : List Session
  timeline : List TimelineRow
  progress : List ProgressRow
  pending_decisions : List PendingDecisionRow
  deriving Repr, DecidableEq

/-- Embeds `database.get_session`: `SELECT * FROM sessions WHERE session_id = ?`. -/
def get_session (sid : String) (st : Store) : Option Session :=
  st.sessions.find? (fun s => s.session_id == some sid)

/-- Embeds `database.update_session_status`: sets `current_status` and
`last_activity` on the matching session row and inserts one `status_change`
timeline row. -/
def update_session_status (sid status : String) (now : Nat) (st : Store) :
    Store :=
  { st with
    sessions := st.sessions.map (fun s =>
      if s.session_id == some sid then
        { s with current_status := status, last_activity := now }
      else s),
    timeline := st.timeline ++
      [⟨none, some sid, "status_change", some status, none, now⟩] }

/-- Source: `sum(1 for t in todos if t.get('status') == 'completed')`. -/
def count_completed (todos : List Todo) : Nat :=
  (todos.filter (fun t => t.status == "completed")).length

/-- Embeds `database.update_progress`: `INSERT OR REPLACE` of the progress row
keyed by `session_id` (modelled as remove-then-append), a `last_activity`
bump on the session row, and one `progress_update` timeline row. -/
def update_progress (sid : String) (todos : List Todo) (now : Nat)
    (st : Store) : Store :=
  let completed := count_completed todos
  let total := todos.length
  { st with
    progress := st.progress.filter (fun p => !(p.session_id == some sid)) ++
      [⟨none, some sid, some todos, completed, total, some now⟩],
    sessions := st.sessions.map (fun s =>
      if s.session_id == some sid then { s with last_activity := now } else s),
    timeline := st.timeline ++
      [⟨none, some sid, "progress_update", none, some (completed, total), now⟩] }

/-- Embeds `hooks/progress_tracker.py` `handle_todo_write` after input parsing:
an empty `todos` list returns without touching the store; otherwise the
progress row is rewritten and the session status updated from the list. -/
def handle_todo_write (sid : String) (todos : List Todo) (now : Nat)
    (st : Store) : Store :=
  if todos.isEmpty then st
  else
    let st1 := update_progress sid todos now st
    let completed := count_completed todos
    let total := todos.length
    if todos.any (fun t => t.status == "in_progress") then
      update_session_status sid "working" now st1
    else if completed == total && total > 0 then
      update_session_status sid "completed" now st1
    else st1

def SHOULD_RESUME_WORKING : List String :=
  ["waiting_permission", "waiting_for_user", "idle", "rate_limited"]

/-- The status-resume rule of `hooks/progress_tracker.py` `main`
(lines 40-61): for a found session whose status is in
`SHOULD_RESUME_WORKING`, the status is set to `working`. -/
def progress_tracker_resume (sid : String) (now : Nat) (st : Store) : Store :=
  match get_session sid st with
  | none => st
  | some session =>
    if SHOULD_RESUME_WORKING.contains session.current_status then
      update_session_status sid "working" now st
    else st

/-! ## Pending-session lifecycle (`services/db_pending.py`,
`hooks/session_init.py`, `hooks/session_cleanup.py`) -/

/-- Python truthiness of an optional string (`if goal:`). -/
def goalTruthy : Option String → Bool
  | some g => !(g == "")
  | none => false

/-- Embeds `db_pending.link_pending_session`: find the pending row
(`pending_id = ? AND session_id IS NULL`); when absent return `None` and
leave the store untouched, otherwise link it to the real session id,
transition to `working`, and (when a non-empty goal is given) overwrite the
goal and append a `goal_set` timeline row keyed by the surrogate key. -/
def link_pending_session (pending_id real_session_id : String)
    (goal : Option String) (now : Nat) (st : Store) : Option Nat × Store :=
  match st.sessions.find?
      (fun s => s.pending_id == some pending_id && s.session_id == none) with
  | none => (none, st)
  | some row =>
    let pk := row.id
    if goalTruthy goal then
      (some pk,
       { st with
         sessions := st.sessions.map (fun s =>
           if s.id == pk then
             { s with session_id := some real_session_id,
                      original_goal := goal.getD "",
                      current_status := "working", last_activity := now }
           else s),
         timeline := st.timeline ++
           [⟨some pk, none, "goal_set", goal, none, now⟩] })
    else
      (some pk,
       { st with
         sessions := st.sessions.map (fun s =>
           if s.id == pk then
             { s with session_id := some real_session_id,
                      current_status := "working", last_activity := now }
           else s) })

/-- Embeds `db_pending.cleanup_active_sessions_by_shell_pid`: marks every session
with the given shell pid whose status is not `completed` as `completed`,
returning the number of rows changed (`cursor.rowcount`). -/
def cleanup_active_sessions_by_shell_pid (shell_pid : Int) (now : Nat)
    (st : Store) : Nat × Store :=
  ((st.sessions.filter (fun s =>
      s.shell_pid == some shell_pid && !(s.current_status == "completed"))).length,
   { st with sessions := st.sessions.map (fun s =>
       if s.shell_pid == some shell_pid && !(s.current_status == "completed")
       then { s with current_status := "completed", last_activity := now }
       else s) })

/-- Embeds `db_pending.create_pending_session`: purge stale pending rows of the
same project (`julianday` age over 0.01 days, i.e. over 864 seconds), insert
the new pending `idle` session, and initialise its progress row. -/
def create_pending_session (pending_id project account_alias : String)
    (bundle_id : Option String) (terminal_pid : Option Int)
    (shell_pid : Option Int) (window_id : Option Int) (now : Nat)
    (st : Store) : Nat × Store :=
  let kept := st.sessions.filter (fun s =>
    !(s.pending_id.isSome && s.session_id == none && s.project == project &&
      decide ((now : Int) - (s.created_at : Int) > 864)))
  let pk := st.nextId
  let newSession : Session :=
    ⟨pk, none, some pending_id, project, "等待输入...", "idle", now, now,
     account_alias, bundle_id, terminal_pid, shell_pid, window_id⟩
  (pk, { st with nextId := pk + 1,
                 sessions := kept ++ [newSession],
                 progress := st.progress ++ [⟨some pk, none, none, 0, 0, none⟩] })

/-- Embeds `hooks/session_init.py` `main`, lines 41-56: with a truthy shell pid at
hand, clean up that shell's active sessions and then create the pending
session (the preceding lines only read environment values). -/
def session_init_run (pending_id project account_alias : String)
    (bundle_id : Option String) (terminal_pid : Option Int)
    (shell_pid : Option Int) (window_id : Option Int) (now : Nat)
    (st : Store) : Store :=
  let st1 :=
    match shell_pid with
    | some p =>
      if p == 0 then st else (cleanup_active_sessions_by_shell_pid p now st).2
    | none => st
  (create_pending_session pending_id project account_alias bundle_id
    terminal_pid shell_pid window_id now st1).2

/-- The statuses `session_cleanup.py` treats as terminal:
`current_status NOT IN ('completed', 'rate_limited')`. -/
def isTerminal (status : String) : Bool :=
  status == "completed" || status == "rate_limited"

/-- Embeds `hooks/session_cleanup.py` `cleanup_session`: select the sessions with
this pending id that are not terminal; if none, report 0 and change nothing;
otherwise mark each selected row `completed` (update keyed by its surrogate
key) and append one `status_change`/`completed` timeline row per selected
session, reporting how many were cleaned. -/
def cleanup_session (pending_id : String) (now : Nat) (st : Store) :
    Nat × Store :=
  let matching := st.sessions.filter (fun s =>
    s.pending_id == some pending_id && !(isTerminal s.current_status))
  if matching.isEmpty then (0, st)
  else
    let ids := matching.map (fun s => s.id)
    (matching.length,
     { st with
       sessions := st.sessions.map (fun s =>
         if ids.contains s.id then
           { s with current_status := "completed", last_activity := now }
         else s),
       timeline := st.timeline ++ matching.map (fun r =>
         ⟨some r.id, none, "status_change", some "completed", none, now⟩) })

/-! ## Hook wire contract and the prompt hook (`hooks/utils.py`,
`hooks/goal_tracker.py`) -/

/-- The JSON object a hook writes to standard output. -/
structure HookOutput where
  continueExecution : Bool
  suppressOutput : Bool
  systemMessage : Option String
  stopReason : Option String
  deriving Repr, DecidableEq

/-- Embeds `utils.write_hook_output`: emits `continue`/`suppressOutput`, adds
`systemMessage` only when truthy, adds `stopReason` only when truthy and not
continuing, and exits with code 0 (the second component). -/
def write_hook_output (continue_execution suppress_output : Bool)
    (system_message stop_reason : Option String) : HookOutput × Nat :=
  (⟨continue_execution, suppress_output,
    (match system_message with
     | some m => if m == "" then none else some m
     | none => none),
    (match stop_reason with
     | some r => if r == "" || continue_execution then none else some r
     | none => none)⟩, 0)

/-- A hook's parsed standard-input payload (the fields `goal_tracker.py`
reads). -/
structure HookInput where
  session_id : Option String
  prompt : Option String
  userPrompt : Option String
  cwd : String
  deriving Repr, DecidableEq

/-- Source: `input_data.get('prompt') or input_data.get('userPrompt', '')`. -/
def effectivePrompt (i : HookInput) : String :=
  match i.prompt with
  | some p => if p == "" then i.userPrompt.getD "" else p
  | none => i.userPrompt.getD ""

/-- The session id after the `if not session_id:` truthiness guard. -/
def sidOf (i : HookInput) : Option String :=
  match i.session_id with
  | some s => if s == "" then none else some s
  | none => none

/-- Environment read by the hooks (`CLAUDE_PENDING_SESSION_ID`). -/
structure HookEnv where
  pending_session_id : String
  deriving Repr, DecidableEq

/-- Embeds `database.create_session`: `INSERT OR IGNORE` of the session row (status
defaulting to `working`), one `goal_set` timeline row, and an
`INSERT OR IGNORE` progress row.  The terminal-identity columns of the call
site default to absent values here. -/
def create_session (session_id project original_goal : String) (now : Nat)
    (st : Store) : Store :=
  let already := st.sessions.any (fun s => s.session_id == some session_id)
  let st1 : Store :=
    if already then st
    else { st with nextId := st.nextId + 1,
                   sessions := st.sessions ++
                     [⟨st.nextId, some session_id, none, project,
                       original_goal, "working", now, now, "default",
                       none, none, none, none⟩] }
  let st2 : Store := { st1 with timeline := st1.timeline ++
    [⟨none, some session_id, "goal_set", some original_goal, none, now⟩] }
  if st2.progress.any (fun p => p.session_id == some session_id) then st2
  else { st2 with progress := st2.progress ++
    [⟨none, some session_id, none, 0, 0, none⟩] }

/-- Embeds `database.resolve_pending_decisions`. -/
def resolve_pending_decisions (sid : String) (now : Nat) (st : Store) :
    Store :=
  { st with pending_decisions := st.pending_decisions.map (fun d =>
      if d.session_id == sid && !d.resolved then
        { d with resolved := true, resolved_at := some now }
      else d) }

/-- Embeds `database.add_timeline_event` (the `services/database.py` variant used
by `goal_tracker.py`, keyed by the text session id). -/
def add_timeline_event (sid event_type : String) (content : Option String)
    (now : Nat) (st : Store) : Store :=
  { st with timeline := st.timeline ++
      [⟨none, some sid, event_type, content, none, now⟩] }

/-- Embeds `goal_tracker.py` `main` past the input guards: try to link a pending
session (the link goal argument is the working directory), on a complete
link overwrite the goal and append `goal_set`; otherwise create the session
or record the prompt as `user_input` on an existing one. -/
def goal_tracker_core (sid prompt cwd pending_id : String) (now : Nat)
    (st : Store) : Store :=
  let fallthrough : Store → Store := fun st' =>
    match get_session sid st' with
    | none => create_session sid cwd prompt now st'
    | some _ =>
      add_timeline_event sid "user_input" (some (prompt.take 500)) now
        (update_session_status sid "working" now
          (resolve_pending_decisions sid now st'))
  if pending_id == "" then fallthrough st
  else
    let res := link_pending_session pending_id sid (some cwd) now st
    match res.1 with
    | none => fallthrough res.2
    | some _ =>
      match get_session sid res.2 with
      | none => fallthrough res.2
      | some _ =>
        { res.2 with
          sessions := res.2.sessions.map (fun s =>
            if s.session_id == some sid then
              { s with original_goal := prompt, current_status := "working",
                       last_activity := now }
            else s),
          timeline := res.2.timeline ++
            [⟨none, some sid, "goal_set", some prompt, none, now⟩] }

/-- Embeds `goal_tracker.py` `main`: the two input guards return the minimal
success object without touching the store; every path ends in
`write_hook_output()` and exit code 0. -/
def goal_tracker_main (i : HookInput) (env : HookEnv) (now : Nat)
    (st : Store) : Store × HookOutput × Nat :=
  let success := write_hook_output true true none none
  match sidOf i with
  | none => (st, success.1, success.2)
  | some sid =>
    let prompt := effectivePrompt i
    if prompt == "" then (st, success.1, success.2)
    else
      (goal_tracker_core sid prompt i.cwd env.pending_session_id now st,
       success.1, success.2)

/-! ## Rate-limit detection (`hooks/snapshot_hook.py`) -/

/-- One structured transcript record, with the fields `detect_rate_limit`
reads: `error` is `str(event.get('error', ''))`, `result` is
`str(event.get('result', ''))`, `message` is `str(event.get('message', ''))`,
all before lower-casing. -/
structure TranscriptEvent where
  kind : String
  error : String
  is_error : Bool
  result : String
  message : String
  deriving Repr, DecidableEq

def RATE_LIMIT_KEYWORDS : List String :=
  ["rate limit", "rate_limit", "too many requests",
   "429", "quota exceeded", "overloaded"]

/-- Python's `str.lower()` (over the decoded characters; `Char.toLower`
lowers the ASCII range, which covers every keyword). -/
def strToLower (s : String) : String :=
  ⟨s.data.map Char.toLower⟩

/-- Whether `pat` begins `text` (character lists). -/
def isPrefixChars : List Char → List Char → Bool
  | [], _ => true
  | _ :: _, [] => false
  | p :: ps, t :: ts => p == t && isPrefixChars ps ts

/-- Whether `pat` occurs somewhere inside `text` (character lists). -/
def isInfixChars (pat : List Char) : List Char → Bool
  | [] => pat.isEmpty
  | t :: ts => isPrefixChars pat (t :: ts) || isInfixChars pat ts

/-- Python's `keyword in text` substring test. -/
def strContains (text pat : String) : Bool :=
  isInfixChars pat.toList text.toList

/-- The first keyword of `RATE_LIMIT_KEYWORDS` contained in the (already
lower-cased) text, mirroring the `for keyword in RATE_LIMIT_KEYWORDS`
early-return loops. -/
def firstKeyword (text : String) : Option String :=
  RATE_LIMIT_KEYWORDS.find? (fun k => strContains text k)

/-- One iteration of the event loop in `detect_rate_limit`: `user` and
`assistant` records are skipped outright; `error`, erroring `tool_result`,
and `system` records are matched against the keywords. -/
def scanEvent (e : TranscriptEvent) : Option String :=
  if e.kind == "user" || e.kind == "assistant" then none
  else
    match (if e.kind == "error" then firstKeyword (strToLower e.error) else none) with
    | some k => some k
    | none =>
      match (if e.kind == "tool_result" && e.is_error then
               firstKeyword (strToLower e.result)
             else none) with
      | some k => some k
      | none =>
        if e.kind == "system" then firstKeyword (strToLower e.message) else none

def detectScan : List TranscriptEvent → Option String
  | [] => none
  | e :: rest =>
    match scanEvent e with
    | some k => some k
    | none => detectScan rest

/-- Embeds `get_last_n_events`: `events[-n:] if len(events) >= n else events`. -/
def lastN (n : Nat) (events : List TranscriptEvent) : List TranscriptEvent :=
  events.drop (events.length - n)

/-- Embeds `snapshot_hook.detect_rate_limit` on the parsed transcript records
(file reading and JSONL decoding abstracted away): scan the last five
records and return the first keyword hit. -/
def detect_rate_limit (events : List TranscriptEvent) :
    Bool × Option String :=
  match detectScan (lastN 5 events) with
  | some k => (true, some k)
  | none => (false, none)

/-! ## Shared helper lemmas -/

/-- Status written by `update_session_status` on every row carrying the
session id. -/
lemma update_session_status_sets (sid status : String) (now : Nat)
    (st : Store) :
    ∀ s' ∈ (update_session_status sid status now st).sessions,
      s'.session_id = some sid → s'.current_status = status := by
  intro s' hs' hsid
  unfold update_session_status at hs'
  simp only [List.mem_map] at hs'
  obtain ⟨a, _, rfl⟩ := hs'
  by_cases hc : a.session_id = some sid
  · simp [hc]
  · simp only [hc, beq_iff_eq, if_neg] at hsid ⊢
    exact absurd hsid hc

lemma update_session_status_progress (sid status : String) (now : Nat)
    (st : Store) :
    (update_session_status sid status now st).progress = st.progress := rfl

/-! ## C3 -/

/-- C3: when no session row matches `pending_id = ? AND session_id IS NULL`,
`link_pending_session` returns the not-found signal `none` and leaves the
whole store unchanged — no partial link. -/
theorem link_pending_session_not_found (pending_id rsid : String)
    (goal : Option String) (now : Nat) (st : Store)
    (h : ∀ s ∈ st.sessions,
      ¬(s.pending_id = some pending_id ∧ s.session_id = none)) :
    link_pending_session pending_id rsid goal now st = (none, st) := by
  have hfind : st.sessions.find?
      (fun s => s.pending_id == some pending_id && s.session_id == none)
      = none := by
    rw [List.find?_eq_none]
    intro s hs hq
    simp only [Bool.and_eq_true, beq_iff_eq] at hq
    exact h s hs hq
  unfold link_pending_session
  rw [hfind]

/-- Witness for C3 on a store whose only session is already linked. -/
theorem link_pending_session_not_found_witness :
    link_pending_session "p9" "s1" (some "goal") 5
      ⟨2, [⟨1, some "s0", some "p0", "/proj", "g", "working", 0, 0, "a",
            none, none, none, none⟩], [], [], []⟩
    = (none,
       ⟨2, [⟨1, some "s0", some "p0", "/proj", "g", "working", 0, 0, "a",
             none, none, none, none⟩], [], [], []⟩) :=
  link_pending_session_not_found "p9" "s1" (some "goal") 5 _ (by decide)

/-! ## C7 -/

/-- C7: a hook input with a missing (or empty) session id, or an empty
effective prompt, makes `goal_tracker.main` return the untouched store, emit
exactly `{"continue": true, "suppressOutput": true}`, and exit 0. -/
theorem goal_tracker_guard_noop (i : HookInput) (env : HookEnv) (now : Nat)
    (st : Store) (h : sidOf i = none ∨ effectivePrompt i = "") :
    goal_tracker_main i env now st = (st, ⟨true, true, none, none⟩, 0) := by
  unfold goal_tracker_main write_hook_output
  rcases h with h | h
  · rw [h]
  · cases hs : sidOf i with
    | none => rfl
    | some sid => simp [h]

/-- Witness for C7: an input with a prompt but no session id. -/
theorem goal_tracker_guard_noop_witness :
    goal_tracker_main ⟨none, some "do things", none, "/proj"⟩ ⟨"p1"⟩ 3
      ⟨1, [], [], [], []⟩
    = (⟨1, [], [], [], []⟩, ⟨true, true, none, none⟩, 0) :=
  goal_tracker_guard_noop ⟨none, some "do things", none, "/proj"⟩ ⟨"p1"⟩ 3
    ⟨1, [], [], [], []⟩ (Or.inl (by decide))

/-! ## C10 -/

/-- C10: for a store containing the session, `update_session_status` appends
exactly one `status_change` timeline row, leaves progress, pending decisions
and the id counter alone, and rewrites each session row changing only
`current_status` and `last_activity` (all identity, goal, creation and
terminal fields are preserved; rows of other sessions are untouched) — with
no write-time deduplication: this holds for every `status`, including one
equal to the current status. -/
theorem update_session_status_frame (sid status : String) (now : Nat)
    (st : Store) (h : ∃ s ∈ st.sessions, s.session_id = some sid) :
    (update_session_status sid status now st).timeline =
      st.timeline ++ [⟨none, some sid, "status_change", some status, none, now⟩]
    ∧ (update_session_status sid status now st).progress = st.progress
    ∧ (update_session_status sid status now st).pending_decisions =
        st.pending_decisions
    ∧ (update_session_status sid status now st).nextId = st.nextId
    ∧ List.Forall₂ (fun s' s =>
        s'.id = s.id ∧ s'.session_id = s.session_id
        ∧ s'.pending_id = s.pending_id ∧ s'.project = s.project
        ∧ s'.original_goal = s.original_goal ∧ s'.created_at = s.created_at
        ∧ s'.account_alias = s.account_alias ∧ s'.bundle_id = s.bundle_id
        ∧ s'.terminal_pid = s.terminal_pid ∧ s'.shell_pid = s.shell_pid
        ∧ s'.window_id = s.window_id
        ∧ (s.session_id ≠ some sid → s' = s)
        ∧ (s.session_id = some sid →
            s'.current_status = status ∧ s'.last_activity = now))
        (update_session_status sid status now st).sessions st.sessions := by
  refine ⟨rfl, rfl, rfl, rfl, ?_⟩
  unfold update_session_status
  rw [List.forall₂_map_left_iff, List.forall₂_same]
  intro s _
  by_cases hc : s.session_id = some sid
  · simp [hc]
  · simp [hc]

/-- Witness for C10 on a one-session store, writing the status it already
has (`working` → `working` still appends an event). -/
theorem update_session_status_frame_witness :
    (update_session_status "s1" "working" 9
      ⟨2, [⟨1, some "s1", none, "/proj", "g", "working", 0, 0, "a",
            none, none, none, none⟩], [], [], []⟩).timeline
    = [⟨none, some "s1", "status_change", some "working", none, 9⟩] :=
  (update_session_status_frame "s1" "working" 9
    ⟨2, [⟨1, some "s1", none, "/proj", "g", "working", 0, 0, "a",
          none, none, none, none⟩], [], [], []⟩
    ⟨⟨1, some "s1", none, "/proj", "g", "working", 0, 0, "a",
      none, none, none, none⟩, by decide, by decide⟩).1

/-! ## C4 -/

/-- C4: the PostToolUse status-resume rule.  For an existing session whose
status is one of `SHOULD_RESUME_WORKING` (`waiting_permission`,
`waiting_for_user`, `idle`, `rate_limited`) the hook sets the status to
`working`; for any other status this rule leaves the store untouched. -/
theorem post_tool_use_resume (sid : String) (now : Nat) (st : Store)
    (s : Session) (h : get_session sid st = some s) :
    (SHOULD_RESUME_WORKING.contains s.current_status = true →
       ∀ s' ∈ (progress_tracker_resume sid now st).sessions,
         s'.session_id = some sid → s'.current_status = "working")
    ∧ (SHOULD_RESUME_WORKING.contains s.current_status = false →
       progress_tracker_resume sid now st = st) := by
  constructor
  · intro hres
    unfold progress_tracker_resume
    rw [h]
    simp only [hres, if_true]
    exact update_session_status_sets sid "working" now st
  · intro hres
    unfold progress_tracker_resume
    rw [h]
    simp only [hres, Bool.false_eq_true, if_false]

/-- Witness for C4 on an `idle` session: the stored row ends up
`working`. -/
theorem post_tool_use_resume_witness :
    (⟨1, some "s1", none, "/proj", "g", "working", 0, 9, "a",
      none, none, none, none⟩ : Session).current_status = "working" :=
  (post_tool_use_resume "s1" 9
    ⟨2, [⟨1, some "s1", none, "/proj", "g", "idle", 0, 0, "a",
          none, none, none, none⟩], [], [], []⟩
    ⟨1, some "s1", none, "/proj", "g", "idle", 0, 0, "a",
     none, none, none, none⟩ (by decide)).1 (by decide)
    ⟨1, some "s1", none, "/proj", "g", "working", 0, 9, "a",
     none, none, none, none⟩ (by decide) (by decide)

/-! ## C9 -/

/-- Fact: `cleanup_session` is a no-op reporting 0 when every session carrying the
pending id is already terminal. -/
lemma cleanup_session_of_terminal (pending_id : String) (now : Nat)
    (st : Store)
    (h : ∀ s ∈ st.sessions,
      s.pending_id = some pending_id → isTerminal s.current_status = true) :
    cleanup_session pending_id now st = (0, st) := by
  have hfil : st.sessions.filter (fun s =>
      s.pending_id == some pending_id && !(isTerminal s.current_status))
      = [] := by
    rw [List.filter_eq_nil_iff]
    intro s hs hq
    simp only [Bool.and_eq_true, beq_iff_eq, Bool.not_eq_true'] at hq
    rw [h s hs hq.1] at hq
    exact absurd hq.2 (by decide)
  unfold cleanup_session
  rw [hfil]
  rfl

/-- After a cleanup call, every session carrying the pending id is
terminal. -/
lemma cleanup_session_terminal_after (pending_id : String) (now : Nat)
    (st : Store) :
    ∀ s ∈ (cleanup_session pending_id now st).2.sessions,
      s.pending_id = some pending_id → isTerminal s.current_status = true := by
  intro s hs hp
  unfold cleanup_session at hs
  by_cases hm : (st.sessions.filter (fun s =>
      s.pending_id == some pending_id && !(isTerminal s.current_status))).isEmpty
  · rw [if_pos hm] at hs
    rw [List.isEmpty_iff] at hm
    have := (List.filter_eq_nil_iff.mp hm) s hs
    simp only [Bool.and_eq_true, beq_iff_eq, Bool.not_eq_true',
      not_and] at this
    have := this hp
    simpa using this
  · rw [if_neg hm] at hs
    simp only [List.mem_map] at hs
    obtain ⟨a, ha, rfl⟩ := hs
    by_cases hc : ((st.sessions.filter (fun s =>
        s.pending_id == some pending_id && !(isTerminal s.current_status))).map
          (fun s => s.id)).contains a.id = true
    · simp only [hc, if_true]
      decide
    · rw [if_neg hc] at hp ⊢
      by_cases ht : isTerminal a.current_status = true
      · exact ht
      · exfalso
        have hmem : a ∈ st.sessions.filter (fun s =>
            s.pending_id == some pending_id &&
            !(isTerminal s.current_status)) := by
          rw [List.mem_filter]
          refine ⟨ha, ?_⟩
          simp only [Bool.and_eq_true, beq_iff_eq, Bool.not_eq_true']
          exact ⟨hp, by simpa using ht⟩
        exact hc (List.elem_iff.mpr (List.mem_map.mpr ⟨a, hmem, rfl⟩))

/-- C9: the explicit cleanup call keyed by a pending id changes no session
row, appends no timeline row and reports zero cleaned sessions whenever
every session with that pending id is already terminal (`completed` or
`rate_limited`); consequently running the cleanup twice leaves exactly the
store produced by running it once. -/
theorem cleanup_session_terminal_idempotent (pending_id : String)
    (now now2 : Nat) (st : Store) :
    ((∀ s ∈ st.sessions,
        s.pending_id = some pending_id → isTerminal s.current_status = true) →
      cleanup_session pending_id now st = (0, st))
    ∧ cleanup_session pending_id now2 (cleanup_session pending_id now st).2
      = (0, (cleanup_session pending_id now st).2) :=
  ⟨cleanup_session_of_terminal pending_id now st,
   cleanup_session_of_terminal pending_id now2 _
     (cleanup_session_terminal_after pending_id now st)⟩

/-- Witness for C9 on a store whose `p1` session is already completed. -/
theorem cleanup_session_terminal_idempotent_witness :
    cleanup_session "p1" 7
      ⟨2, [⟨1, some "s1", some "p1", "/proj", "g", "completed", 0, 0, "a",
            none, none, none, none⟩], [], [], []⟩
    = (0, ⟨2, [⟨1, some "s1", some "p1", "/proj", "g", "completed", 0, 0, "a",
               none, none, none, none⟩], [], [], []⟩) :=
  (cleanup_session_terminal_idempotent "p1" 7 8
    ⟨2, [⟨1, some "s1", some "p1", "/proj", "g", "completed", 0, 0, "a",
          none, none, none, none⟩], [], [], []⟩).1 (by decide)

/-! ## C8 -/

/-- After the shell-pid cleanup, every session with that shell pid has
status `completed`. -/
lemma cleanup_shell_pid_all_completed (p : Int) (now : Nat) (st : Store) :
    ∀ s ∈ (cleanup_active_sessions_by_shell_pid p now st).2.sessions,
      s.shell_pid = some p → s.current_status = "completed" := by
  intro s hs hsp
  unfold cleanup_active_sessions_by_shell_pid at hs
  simp only [List.mem_map] at hs
  obtain ⟨a, _, rfl⟩ := hs
  by_cases hc : (a.shell_pid == some p && !(a.current_status == "completed"))
      = true
  · rw [if_pos hc]
  · rw [if_neg hc] at hsp ⊢
    simp only [Bool.and_eq_true, beq_iff_eq, Bool.not_eq_true',
      not_and] at hc
    have := hc hsp
    simpa using this

/-- C8: running the session-init sequence for a (truthy) shell pid —
cleanup of that shell's active sessions followed by insertion of the new
pending session — leaves exactly one session carrying that shell pid in a
non-terminal status, whatever the starting store. -/
theorem session_init_unique_nonterminal (pending_id project acct : String)
    (bundle_id : Option String) (tpid : Option Int) (p : Int)
    (wid : Option Int) (now : Nat) (st : Store) (hp : ¬(p = 0)) :
    ((session_init_run pending_id project acct bundle_id tpid (some p) wid
        now st).sessions.filter
      (fun s => s.shell_pid == some p && !(isTerminal s.current_status))).length
    = 1 := by
  have hp' : (p == 0) = false := by simpa using hp
  simp only [session_init_run, hp', Bool.false_eq_true, if_false]
  have hcl := cleanup_shell_pid_all_completed p now st
  set st1 := (cleanup_active_sessions_by_shell_pid p now st).2 with hst1
  unfold create_pending_session
  simp only [List.filter_append, List.length_append]
  have hkept : (st1.sessions.filter (fun s =>
      !(s.pending_id.isSome && s.session_id == none && s.project == project &&
        decide ((now : Int) - (s.created_at : Int) > 864)))).filter
      (fun s => s.shell_pid == some p && !(isTerminal s.current_status))
      = [] := by
    rw [List.filter_eq_nil_iff]
    intro a ha hq
    simp only [Bool.and_eq_true, beq_iff_eq, Bool.not_eq_true'] at hq
    have : a.current_status = "completed" :=
      hcl a (List.mem_of_mem_filter ha) hq.1
    rw [this] at hq
    exact absurd hq.2 (by decide)
  rw [hkept]
  simp [isTerminal]

/-- Witness for C8: a store holding a working session on shell pid 7; after
session-init only the new pending session is non-terminal for pid 7. -/
theorem session_init_unique_nonterminal_witness :
    (¬((7 : Int) = 0))
    ∧ ((session_init_run "p2" "/proj" "a" none none (some 7) none 50
          ⟨2, [⟨1, some "s1", none, "/proj", "g", "working", 0, 0, "a",
                none, none, some 7, none⟩], [], [], []⟩).sessions.filter
        (fun s => s.shell_pid == some 7 &&
          !(isTerminal s.current_status))).length = 1 :=
  ⟨by decide,
   session_init_unique_nonterminal "p2" "/proj" "a" none none 7 none 50
     ⟨2, [⟨1, some "s1", none, "/proj", "g", "working", 0, 0, "a",
           none, none, some 7, none⟩], [], [], []⟩ (by decide)⟩

/-! ## C5 -/

/-- The progress row stored by `update_progress` for the session, after the
`INSERT OR REPLACE`. -/
lemma update_progress_filter (sid : String) (todos : List Todo) (now : Nat)
    (st : Store) :
    (update_progress sid todos now st).progress.filter
      (fun p => p.session_id == some sid)
    = [⟨none, some sid, some todos, count_completed todos, todos.length,
        some now⟩] := by
  unfold update_progress
  rw [List.filter_append, List.filter_filter]
  have h1 : st.progress.filter (fun a =>
      (a.session_id == some sid) && !(a.session_id == some sid)) = [] := by
    rw [List.filter_eq_nil_iff]
    intro a _
    simp
  rw [h1]
  simp

/-- Fact: `handle_todo_write` on a non-empty list, with the guards resolved. -/
lemma handle_todo_write_eq (sid : String) (todos : List Todo) (now : Nat)
    (st : Store) (hne : todos ≠ []) :
    handle_todo_write sid todos now st =
      if todos.any (fun t => t.status == "in_progress") then
        update_session_status sid "working" now (update_progress sid todos now st)
      else if count_completed todos == todos.length && decide (todos.length > 0)
      then
        update_session_status sid "completed" now
          (update_progress sid todos now st)
      else update_progress sid todos now st := by
  unfold handle_todo_write
  rw [if_neg (by simpa using hne)]

/-- C5: a PostToolUse TodoWrite with a non-empty list overwrites the
session's progress row with `completed_count = count(status == completed)`
and `total_count = len(list)`; the status becomes `working` when any item is
in progress, and `completed` when every item is completed.  `update_progress`
on an empty list is total and stores the `0/0` row. -/
theorem todo_write_progress_status (sid : String) (todos : List Todo)
    (now : Nat) (st : Store)
    (hex : ∃ s ∈ st.sessions, s.session_id = some sid) :
    (todos ≠ [] →
      ((handle_todo_write sid todos now st).progress.filter
          (fun p => p.session_id == some sid)
        = [⟨none, some sid, some todos, count_completed todos, todos.length,
            some now⟩])
      ∧ ((∃ t ∈ todos, t.status = "in_progress") →
          ∀ s' ∈ (handle_todo_write sid todos now st).sessions,
            s'.session_id = some sid → s'.current_status = "working")
      ∧ ((∀ t ∈ todos, t.status = "completed") →
          ∀ s' ∈ (handle_todo_write sid todos now st).sessions,
            s'.session_id = some sid → s'.current_status = "completed"))
    ∧ ((update_progress sid [] now st).progress.filter
        (fun p => p.session_id == some sid)
      = [⟨none, some sid, some [], 0, 0, some now⟩]) := by
  constructor
  · intro hne
    rw [handle_todo_write_eq sid todos now st hne]
    refine ⟨?_, ?_, ?_⟩
    · by_cases h1 : todos.any (fun t => t.status == "in_progress") = true
      · rw [if_pos h1, update_session_status_progress]
        exact update_progress_filter sid todos now st
      · rw [if_neg h1]
        by_cases h2 : (count_completed todos == todos.length &&
            decide (todos.length > 0)) = true
        · rw [if_pos h2, update_session_status_progress]
          exact update_progress_filter sid todos now st
        · rw [if_neg h2]
          exact update_progress_filter sid todos now st
    · rintro ⟨t, ht, hst⟩
      have h1 : todos.any (fun t => t.status == "in_progress") = true :=
        List.any_eq_true.mpr ⟨t, ht, by rw [beq_iff_eq]; exact hst⟩
      rw [if_pos h1]
      exact update_session_status_sets sid "working" now _
    · intro hall
      have h1 : todos.any (fun t => t.status == "in_progress") = false := by
        rw [Bool.eq_false_iff]
        intro hany
        obtain ⟨t, ht, hp⟩ := List.any_eq_true.mp hany
        rw [beq_iff_eq, hall t ht] at hp
        exact absurd hp (by decide)
      have h2 : (count_completed todos == todos.length &&
          decide (todos.length > 0)) = true := by
        have hc : count_completed todos = todos.length := by
          unfold count_completed
          rw [List.filter_length_eq_length]
          intro t ht
          rw [beq_iff_eq]
          exact hall t ht
        simp [hc, List.length_pos.mpr hne]
      rw [if_neg (by rw [h1]; exact Bool.false_ne_true), if_pos h2]
      exact update_session_status_sets sid "completed" now _
  · have := update_progress_filter sid [] now st
    simpa using this

/-- Witness for C5: one completed item yields a `1/1` progress row. -/
theorem todo_write_progress_status_witness :
    (handle_todo_write "s1" [⟨"a", "completed"⟩] 9
      ⟨2, [⟨1, some "s1", none, "/proj", "g", "working", 0, 0, "a",
            none, none, none, none⟩], [], [], []⟩).progress.filter
        (fun p => p.session_id == some "s1")
    = [⟨none, some "s1", some [⟨"a", "completed"⟩], 1, 1, some 9⟩] :=
  ((todo_write_progress_status "s1" [⟨"a", "completed"⟩] 9
    ⟨2, [⟨1, some "s1", none, "/proj", "g", "working", 0, 0, "a",
          none, none, none, none⟩], [], [], []⟩
    (by decide)).1 (by decide)).1

/-! ## C6 -/

/-- Counterexample to C6: an erroring `tool_result` whose body contains
`429` is detected, but the reported keyword is `rate limit` — the first
entry of `RATE_LIMIT_KEYWORDS` found in the body — not `429`. -/
theorem detect_rate_limit_keyword_cex :
    detect_rate_limit [⟨"tool_result", "", true, "Rate limit: HTTP 429", ""⟩]
      = (true, some "rate limit")
    ∧ detect_rate_limit [⟨"tool_result", "", true, "Rate limit: HTTP 429", ""⟩]
      ≠ (true, some "429")
    ∧ strContains (strToLower "Rate limit: HTTP 429") "429" = true := by decide

/-- A record is never skipped once one record of the scanned list yields a
keyword. -/
lemma detectScan_isSome_of_mem (l : List TranscriptEvent)
    (e : TranscriptEvent) (he : e ∈ l) (hs : (scanEvent e).isSome = true) :
    (detectScan l).isSome = true := by
  induction l with
  | nil => cases he
  | cons a rest ih =>
    unfold detectScan
    cases hsa : scanEvent a with
    | some k => rfl
    | none =>
      rcases List.mem_cons.mp he with rfl | hmem
      · rw [hsa] at hs
        exact absurd hs (by decide)
      · exact ih hmem

/-- An erroring `tool_result` whose lower-cased body contains `429` yields a
keyword. -/
lemma scanEvent_tool_result_429 (e : TranscriptEvent)
    (hk : e.kind = "tool_result") (he : e.is_error = true)
    (hr : strContains (strToLower e.result) "429" = true) :
    (scanEvent e).isSome = true := by
  have hfk : (firstKeyword (strToLower e.result)).isSome = true :=
    List.find?_isSome.mpr ⟨"429", by decide, hr⟩
  have d1 : (("tool_result" : String) == "user") = false := by decide
  have d2 : (("tool_result" : String) == "assistant") = false := by decide
  have d3 : (("tool_result" : String) == "error") = false := by decide
  have d4 : (("tool_result" : String) == "tool_result") = true := by decide
  unfold scanEvent
  rw [hk, he]
  simp only [d1, d2, d3, d4, Bool.or_self, Bool.false_eq_true, if_false,
    Bool.and_true, if_true]
  cases hf : firstKeyword (strToLower e.result) with
  | none =>
    rw [hf] at hfk
    exact absurd hfk (by decide)
  | some k => simp [hf]

/-- No keyword occurs in any field the detector reads. -/
def eventHasNoKeyword (e : TranscriptEvent) : Bool :=
  RATE_LIMIT_KEYWORDS.all (fun k =>
    !(strContains (strToLower e.error) k) && !(strContains (strToLower e.result) k) &&
    !(strContains (strToLower e.message) k))

lemma scanEvent_eq_none (e : TranscriptEvent)
    (h : e.kind = "user" ∨ e.kind = "assistant" ∨
      eventHasNoKeyword e = true) :
    scanEvent e = none := by
  unfold scanEvent
  rcases h with h | h | h
  · rw [h]
    simp
  · rw [h]
    simp
  · have hall := List.all_eq_true.mp h
    have herr : firstKeyword (strToLower e.error) = none := by
      rw [firstKeyword, List.find?_eq_none]
      intro k hk
      have := hall k hk
      simp only [Bool.and_eq_true, Bool.not_eq_true'] at this
      simp [this.1.1]
    have hres : firstKeyword (strToLower e.result) = none := by
      rw [firstKeyword, List.find?_eq_none]
      intro k hk
      have := hall k hk
      simp only [Bool.and_eq_true, Bool.not_eq_true'] at this
      simp [this.1.2]
    have hmsg : firstKeyword (strToLower e.message) = none := by
      rw [firstKeyword, List.find?_eq_none]
      intro k hk
      have := hall k hk
      simp only [Bool.and_eq_true, Bool.not_eq_true'] at this
      simp [this.2]
    by_cases hu : (e.kind == "user" || e.kind == "assistant") = true
    · rw [if_pos hu]
    · rw [if_neg hu]
      simp only [herr, hres, hmsg, ite_self]

lemma detectScan_eq_none (l : List TranscriptEvent)
    (h : ∀ e ∈ l, scanEvent e = none) : detectScan l = none := by
  induction l with
  | nil => rfl
  | cons a rest ih =>
    unfold detectScan
    rw [h a (List.mem_cons_self a rest)]
    exact ih (fun e he => h e (List.mem_cons_of_mem a he))

/-- Fact: the scan of the transcript tail reports the value of the first
record that yields a keyword, skipping every earlier record that yields
none. -/
lemma detectScan_append_first (l₁ : List TranscriptEvent)
    (e : TranscriptEvent) (l₂ : List TranscriptEvent) (k : String)
    (h1 : ∀ x ∈ l₁, scanEvent x = none) (he : scanEvent e = some k) :
    detectScan (l₁ ++ e :: l₂) = some k := by
  induction l₁ with
  | nil =>
    rw [List.nil_append]
    unfold detectScan
    rw [he]
  | cons a rest ih =>
    rw [List.cons_append]
    unfold detectScan
    rw [h1 a (List.mem_cons_self a rest)]
    exact ih (fun x hx => h1 x (List.mem_cons_of_mem a hx))

/-- Fact: `find?` returns the element after a prefix of failures. -/
lemma find?_split {α : Type} (p : α → Bool) (l₁ : List α) (a : α)
    (l₂ : List α) (h1 : ∀ x ∈ l₁, p x = false) (ha : p a = true) :
    (l₁ ++ a :: l₂).find? p = some a := by
  induction l₁ with
  | nil =>
    rw [List.nil_append]
    exact List.find?_cons_of_pos _ ha
  | cons x xs ih =>
    rw [List.cons_append]
    rw [List.find?_cons_of_neg _
      (by rw [h1 x (List.mem_cons_self x xs)]; exact Bool.false_ne_true)]
    exact ih (fun y hy => h1 y (List.mem_cons_of_mem x hy))

/-- Fact: on an erroring `tool_result` record the scan reports exactly the
first keyword of the lower-cased result body. -/
lemma scanEvent_tool_result_eq (e : TranscriptEvent)
    (hk : e.kind = "tool_result") (he : e.is_error = true) :
    scanEvent e = firstKeyword (strToLower e.result) := by
  have d1 : (("tool_result" : String) == "user") = false := by decide
  have d2 : (("tool_result" : String) == "assistant") = false := by decide
  have d3 : (("tool_result" : String) == "error") = false := by decide
  have d4 : (("tool_result" : String) == "tool_result") = true := by decide
  have d5 : (("tool_result" : String) == "system") = false := by decide
  unfold scanEvent
  rw [hk, he]
  simp only [d1, d2, d3, d4, d5, Bool.or_self, Bool.false_eq_true, if_false,
    Bool.and_true, if_true]
  cases hf : firstKeyword (strToLower e.result) with
  | some k => simp [hf]
  | none => simp [hf]

/-- C6 amended: detection returns true whenever one of the last five records
is an erroring `tool_result` whose body contains `429`; the value reported
for any transcript tail is the keyword of the first record that yields one,
an erroring `tool_result` yields the first entry of `RATE_LIMIT_KEYWORDS`
contained in its lower-cased body (so `429` exactly when no earlier-listed
keyword occurs there); and detection returns false when every one of the
last five records is a plain `user`/`assistant` message or carries no listed
keyword in its error/result/message fields. -/
theorem detect_rate_limit_spec (events : List TranscriptEvent) :
    ((∃ e ∈ lastN 5 events, e.kind = "tool_result" ∧ e.is_error = true ∧
        strContains (strToLower e.result) "429" = true) →
      (detect_rate_limit events).1 = true)
    ∧ ((∀ e ∈ lastN 5 events,
          e.kind = "user" ∨ e.kind = "assistant" ∨
            eventHasNoKeyword e = true) →
      detect_rate_limit events = (false, none))
    ∧ (∀ l₁ e l₂ k, lastN 5 events = l₁ ++ e :: l₂ →
        (∀ x ∈ l₁, scanEvent x = none) → scanEvent e = some k →
        detect_rate_limit events = (true, some k))
    ∧ (∀ e : TranscriptEvent, e.kind = "tool_result" → e.is_error = true →
        scanEvent e = firstKeyword (strToLower e.result))
    ∧ (∀ (text : String) ks₁ k ks₂, RATE_LIMIT_KEYWORDS = ks₁ ++ k :: ks₂ →
        (∀ x ∈ ks₁, strContains text x = false) →
        strContains text k = true →
        firstKeyword text = some k) := by
  refine ⟨?_, ?_, ?_, ?_, ?_⟩
  · rintro ⟨e, he, hk, herr, hr⟩
    have hsome := detectScan_isSome_of_mem _ e he
      (scanEvent_tool_result_429 e hk herr hr)
    unfold detect_rate_limit
    cases hd : detectScan (lastN 5 events) with
    | none =>
      rw [hd] at hsome
      exact absurd hsome (by decide)
    | some k => rfl
  · intro h
    have hnone : detectScan (lastN 5 events) = none :=
      detectScan_eq_none _ (fun e he => scanEvent_eq_none e (h e he))
    unfold detect_rate_limit
    rw [hnone]
  · intro l₁ e l₂ k hsplit h1 he
    unfold detect_rate_limit
    rw [hsplit, detectScan_append_first l₁ e l₂ k h1 he]
  · exact scanEvent_tool_result_eq
  · intro text ks₁ k ks₂ hsplit h1 hk
    unfold firstKeyword
    rw [hsplit]
    exact find?_split _ ks₁ k ks₂ h1 hk

/-- Witness for C6 on a two-record tail: the user record discussing rate
limits is skipped and the erroring `tool_result` whose body carries only the
`429` keyword reports `429`. -/
theorem detect_rate_limit_spec_witness :
    detect_rate_limit [⟨"user", "", false, "", "we discussed a rate limit"⟩,
      ⟨"tool_result", "", true, "error HTTP 429", ""⟩] = (true, some "429") :=
  (detect_rate_limit_spec
    [⟨"user", "", false, "", "we discussed a rate limit"⟩,
     ⟨"tool_result", "", true, "error HTTP 429", ""⟩]).2.2.1
    [⟨"user", "", false, "", "we discussed a rate limit"⟩]
    ⟨"tool_result", "", true, "error HTTP 429", ""⟩ [] "429"
    (by decide) (by decide) (by decide)

/-! ## C1 -/

/-- Counterexample to C1: a `status_change` to `waiting_for_user` arriving
ten seconds after a `goal_set` event is suppressed even though no previous
`status_change` event exists — the 30-second debounce is measured from the
last event that emitted a node of any type.  The claim predicts a "waiting"
node for this log; the code emits only the "start" node. -/
theorem aggregate_debounce_cex :
    ((aggregate_timeline_nodes
        [⟨"goal_set", "g", 0, 0, some 0⟩,
         ⟨"status_change", "waiting_for_user", 0, 0, some 10⟩] 20).map
      (fun n => n.kind) = ["start"])
    ∧ (([(⟨"goal_set", "g", 0, 0, some 0⟩ : TimelineEvent),
         ⟨"status_change", "waiting_for_user", 0, 0, some 10⟩].filter
          (fun e => e.event_type == "status_change")).map
            (fun e => e.content) = ["waiting_for_user"]) := by decide

/-- C1 amended: a `status_change` event is suppressed when it falls less
than 30 seconds after the last node-emitting event (`debounced`), or when
its status equals the status of the last non-debounced `status_change`;
otherwise it emits a node exactly when the new status is `waiting_for_user`,
`waiting_permission` or `completed`. -/
theorem status_change_emission (st : AggState) (e : TimelineEvent) (t : Nat)
    (hts : e.timestamp = some t) (hty : e.event_type = "status_change") :
    ((aggStep st e).nodes =
      st.nodes ++
        (if debounced st t = false ∧ st.last_status ≠ some e.content then
           (statusChangeNode t e.content).toList
         else []))
    ∧ ((statusChangeNode t e.content).isSome =
        ["waiting_for_user", "waiting_permission", "completed"].contains
          e.content) := by
  obtain ⟨ty, co, mc, mt, ts⟩ := e
  simp only [TimelineEvent.timestamp] at hts
  simp only [TimelineEvent.event_type] at hty
  subst hty
  subst hts
  constructor
  · simp only [aggStep, TimelineEvent.content]
    by_cases hd : debounced st t = true
    · rw [if_pos (by simp [hd])]
      simp [hd]
    · have hd' : debounced st t = false := Bool.eq_false_iff.mpr hd
      rw [if_neg (by simp [hd']), if_neg (by decide), if_pos (by decide)]
      by_cases hl : (st.last_status == some co) = true
      · rw [if_pos hl, beq_iff_eq] at *
        simp [hl]
      · rw [if_neg hl]
        have hl' : st.last_status ≠ some co := by simpa using hl
        rw [if_pos ⟨hd', hl'⟩]
        cases hn : statusChangeNode t co with
        | some n => simp [pushNode, hn]
        | none => simp [pushNode, hn]
  · simp only [TimelineEvent.content]
    by_cases h1 : co = "waiting_for_user"
    · simp [statusChangeNode, h1]
    · by_cases h2 : co = "waiting_permission"
      · simp [statusChangeNode, h1, h2]
      · by_cases h3 : co = "completed"
        · simp [statusChangeNode, h1, h2, h3]
        · simp [statusChangeNode, h1, h2, h3]

/-- Witness for C1's amended rule: a fresh state emits a waiting node. -/
theorem status_change_emission_witness :
    ((aggStep initAggState
        ⟨"status_change", "waiting_for_user", 0, 0, some 100⟩).nodes =
      initAggState.nodes ++
        (if debounced initAggState 100 = false ∧
            initAggState.last_status ≠ some "waiting_for_user" then
           (statusChangeNode 100 "waiting_for_user").toList
         else []))
    ∧ ((statusChangeNode 100 "waiting_for_user").isSome =
        ["waiting_for_user", "waiting_permission", "completed"].contains
          "waiting_for_user") :=
  status_change_emission initAggState
    ⟨"status_change", "waiting_for_user", 0, 0, some 100⟩ 100 rfl rfl

/-! ## C2 -/

/-- Counterexample to C2: a waiting node followed by a complete node.  The
trailing node keeps `completed` (its kind is "complete"), but the earlier
waiting node keeps its creation status `current` — the code only rewrites
the final node, it never marks earlier nodes `completed`. -/
theorem aggregate_earlier_current_cex :
    (aggregate_timeline_nodes
      [⟨"status_change", "waiting_for_user", 0, 0, some 0⟩,
       ⟨"status_change", "completed", 0, 0, some 40⟩] 20).map
        (fun n => (n.kind, n.status))
    = [("waiting", "current"), ("complete", "completed")] := by decide

/-- The status every node carries when it is created: `current` for waiting
and permission nodes, `completed` for start, milestone and complete
nodes. -/
def creationStatus (kind : String) : String :=
  if kind = "waiting" ∨ kind = "permission" then "current" else "completed"

lemma pushNode_nodes_sub (st : AggState) (t : Nat) (o : Option TimelineNode)
    (S : List TimelineNode)
    (ho : ∀ x, o = some x → x.status = creationStatus x.kind)
    (n : TimelineNode) (hn : n ∈ (pushNode st t o).nodes)
    (hS : st.nodes = S) :
    n ∈ S ∨ n.status = creationStatus n.kind := by
  cases o with
  | none => exact Or.inl (hS ▸ hn)
  | some x =>
    simp only [pushNode, List.mem_append, List.mem_singleton] at hn
    rcases hn with hn | rfl
    · exact Or.inl (hS ▸ hn)
    · exact Or.inr (ho n rfl)

/-- Every node appended by one loop iteration carries its creation
status. -/
lemma aggStep_nodes_ok (st : AggState) (e : TimelineEvent) :
    ∀ n ∈ (aggStep st e).nodes,
      n ∈ st.nodes ∨ n.status = creationStatus n.kind := by
  intro n hn
  obtain ⟨ty, co, mc, mt, ts⟩ := e
  cases ts with
  | none => exact Or.inl hn
  | some t =>
    simp only [aggStep] at hn
    split at hn
    · exact Or.inl hn
    · split at hn
      · exact pushNode_nodes_sub st t _ st.nodes
          (fun x hx => by
            injection hx with hx
            subst hx
            simp [startNode, creationStatus]) n hn rfl
      · split at hn
        · split at hn
          · exact Or.inl hn
          · refine pushNode_nodes_sub _ t _ st.nodes (fun x hx => ?_) n hn rfl
            unfold statusChangeNode at hx
            split at hx
            · injection hx with hx
              subst hx
              simp [waitingNode, creationStatus]
            · split at hx
              · injection hx with hx
                subst hx
                simp [permissionNode, creationStatus]
              · split at hx
                · injection hx with hx
                  subst hx
                  simp [completeStatusNode, creationStatus]
                · injection hx
        · split at hn
          · split at hn <;> split at hn <;> split at hn <;>
              refine pushNode_nodes_sub _ t _ st.nodes
                (fun x hx => ?_) n hn rfl <;>
              first
                | (injection hx with hx
                   subst hx
                   simp [allCompleteNode, milestoneNode, creationStatus])
                | injection hx
          · exact Or.inl hn

lemma foldl_nodes_ok (events : List TimelineEvent) (st : AggState)
    (h : ∀ n ∈ st.nodes, n.status = creationStatus n.kind) :
    ∀ n ∈ (events.foldl aggStep st).nodes,
      n.status = creationStatus n.kind := by
  induction events generalizing st with
  | nil => exact h
  | cons e rest ih =>
    exact ih (aggStep st e)
      (fun n hn => (aggStep_nodes_ok st e n hn).elim (h n) id)

lemma markLastCurrent_dropLast_mem (nodes : List TimelineNode) :
    ∀ n ∈ (markLastCurrent nodes).dropLast, n ∈ nodes := by
  cases hl : nodes.getLast? with
  | none => simp [markLastCurrent, hl]
  | some last =>
    by_cases hk : (last.kind == "complete") = true
    · simp only [markLastCurrent, hl, hk, if_true]
      intro n hn
      exact (List.dropLast_sublist nodes).subset hn
    · simp only [markLastCurrent, hl, hk, Bool.false_eq_true, if_false]
      intro n hn
      rw [List.dropLast_concat] at hn
      exact (List.dropLast_sublist nodes).subset hn

lemma markLastCurrent_getLast (nodes : List TimelineNode)
    (hok : ∀ n ∈ nodes, n.status = creationStatus n.kind) :
    ∀ n, (markLastCurrent nodes).getLast? = some n →
      n.status = (if n.kind = "complete" then "completed" else "current") := by
  intro n hn
  cases hl : nodes.getLast? with
  | none => simp [markLastCurrent, hl] at hn
  | some last =>
    by_cases hk : (last.kind == "complete") = true
    · simp only [markLastCurrent, hl, hk, if_true] at hn
      injection hn with hn
      subst hn
      rw [beq_iff_eq] at hk
      rw [if_pos hk]
      rw [hok last (List.mem_of_mem_getLast? hl), hk]
      simp [creationStatus]
    · simp only [markLastCurrent, hl, hk, Bool.false_eq_true, if_false,
        List.getLast?_concat] at hn
      injection hn with hn
      subst hn
      have hk' : last.kind ≠ "complete" := by simpa using hk
      rw [if_neg hk']

/-- Fact: `(l.drop k).dropLast = l.dropLast.drop k`. -/
lemma dropLast_drop_comm {α : Type} (l : List α) (k : Nat) :
    (l.drop k).dropLast = l.dropLast.drop k := by
  rw [List.dropLast_eq_take, List.dropLast_eq_take, List.drop_take]
  congr 1
  rw [List.length_drop]
  omega

/-- C2 amended: the final node of an aggregation result is marked `current`
unless its kind is "complete" (then it stays `completed`), while every
earlier node keeps the status it was created with — `current` for waiting
and permission nodes, `completed` for all others. -/
theorem aggregate_status_marking (events : List TimelineEvent)
    (max_nodes : Nat) :
    (∀ n ∈ (aggregate_timeline_nodes events max_nodes).dropLast,
      n.status = creationStatus n.kind)
    ∧ (∀ n, (aggregate_timeline_nodes events max_nodes).getLast? = some n →
      n.status = (if n.kind = "complete" then "completed" else "current")) := by
  unfold aggregate_timeline_nodes
  by_cases he : events.isEmpty = true
  · rw [if_pos he]
    constructor
    · intro n hn
      cases hn
    · intro n hn
      cases hn
  · rw [if_neg he]
    have hok := foldl_nodes_ok events initAggState
      (by intro n hn; cases hn)
    by_cases hlen : (markLastCurrent
        (events.foldl aggStep initAggState).nodes).length > max_nodes
    · rw [if_pos hlen]
      by_cases hz : (max_nodes == 0) = true
      · rw [if_pos hz]
        refine ⟨fun n hn => hok n (markLastCurrent_dropLast_mem _ n hn),
          markLastCurrent_getLast _ hok⟩
      · rw [if_neg hz]
        constructor
        · intro n hn
          rw [dropLast_drop_comm] at hn
          exact hok n
            (markLastCurrent_dropLast_mem _ n (List.drop_subset _ _ hn))
        · intro n hn
          rw [List.getLast?_drop,
            if_neg (by rw [beq_iff_eq] at hz; omega)] at hn
          exact markLastCurrent_getLast _ hok n hn
    · rw [if_neg hlen]
      exact ⟨fun n hn => hok n (markLastCurrent_dropLast_mem _ n hn),
        markLastCurrent_getLast _ hok⟩

/-- Witness for C2's amended rule: the non-final waiting node of the
counterexample log keeps its creation status `current`. -/
theorem aggregate_status_marking_witness :
    (⟨0, "waiting", "等待决策", "需要用户输入", "current"⟩ : TimelineNode).status
      = creationStatus
        (⟨0, "waiting", "等待决策", "需要用户输入", "current"⟩ :
          TimelineNode).kind :=
  (aggregate_status_marking
    [⟨"status_change", "waiting_for_user", 0, 0, some 0⟩,
     ⟨"status_change", "completed", 0, 0, some 40⟩] 20).1
    ⟨0, "waiting", "等待决策", "需要用户输入", "current"⟩ (by decide)

end TaskTracker
